import Mathlib

/-!
Verification of the Pomodoro timer engine of the TodoAppPy repository
(src/core/pomodoro.py), against its natural-language specification.

Shallow embedding.  The Python class PomodoroTimer is modelled as a record
of its mutable fields; timestamps are modelled as natural numbers (seconds
of simulated time); the session-type strings "trabajo" and "descanso" are
modelled by the two-constructor type SessionType (these are the only two
values the source ever uses; the spec calls them work and break).

Two complementary models of the same source method _run_timer are given:

 * run_timer: a big-step, closed-form model of one call of _run_timer,
   including the recursive auto-chain into the break phase (the recursion
   is bounded by a fuel argument; depth 2 covers every real execution,
   since only a "trabajo" phase chains, into a "descanso" phase which does
   not chain).  External interference is modelled by two oracles: a store
   oracle giving the outcome of the i-th database write, and an optional
   cancellation instant (the number of completed one-second loop
   iterations, counted across the whole chain, after which an external
   cancel() call takes effect).  Pause interference is not modelled here;
   it is covered by the small-step system below.

 * Step: a small-step interleaving system over the shared fields plus an
   explicit program counter for the engine thread, used for the reachable
   state invariant and for exhibiting interleavings.  Blocks that the
   source runs under the single lock are taken as atomic steps.
-/

/-- Session kind column of the sessions table: the source only ever writes
the strings "trabajo" (work) and "descanso" (break). -/
inductive SessionType where
  | trabajo
  | descanso
deriving DecidableEq, Repr

/-- One row inserted into the sessions table by _save_session.  The id
column (autoincrement) and the _session_id bookkeeping are omitted: no
claim mentions them.  start_time and end_time are the two timestamp
columns; end_time is an Option because the column is nullable. -/
structure SessionRow where
  task_id : Int
  start_time : Option Nat
  end_time : Option Nat
  duration_minutes : Nat
  type : SessionType
deriving DecidableEq, Repr

/-- Source constant DEFAULT_WORK_MIN. -/
def DEFAULT_WORK_MIN : Nat := 25

/-- Source constant DEFAULT_BREAK_MIN. -/
def DEFAULT_BREAK_MIN : Nat := 5

/-- The mutable fields of the Python class PomodoroTimer.  The thread
handle and the lock are not data; _session_id is omitted (unused by any
claim). -/
structure PomodoroTimer where
  task_id : Int
  work_seconds : Nat
  break_seconds : Nat
  is_running : Bool
  is_paused : Bool
  remaining_time : Nat
  session_type : SessionType
  start_time : Option Nat
deriving DecidableEq, Repr

/-- The constructor PomodoroTimer.__init__: work_min and break_min are
converted to seconds; every flag starts cleared.  (In the source the
defaults are DEFAULT_WORK_MIN and DEFAULT_BREAK_MIN; callers here pass
them explicitly.) -/
def PomodoroTimer.init (task_id : Int) (work_min break_min : Nat) : PomodoroTimer :=
  { task_id := task_id
    work_seconds := work_min * 60
    break_seconds := break_min * 60
    is_running := false
    is_paused := false
    remaining_time := 0
    session_type := .trabajo
    start_time := none }

/-- The method start(): if the running flag is clear it spawns the timer
thread and returns True, otherwise returns False.  Note that start()
itself mutates none of the fields: the running flag is set later, by the
spawned thread, in the prologue of _run_timer. -/
def PomodoroTimer.start (t : PomodoroTimer) : Bool × PomodoroTimer :=
  if !t.is_running then (true, t) else (false, t)

/-- The method pause(): under the lock, if running and not paused, set the
paused flag and return True; otherwise return False with no change. -/
def PomodoroTimer.pause (t : PomodoroTimer) : Bool × PomodoroTimer :=
  if t.is_running && !t.is_paused then (true, { t with is_paused := true })
  else (false, t)

/-- The method resume(): under the lock, if running and paused, clear the
paused flag and return True; otherwise return False with no change. -/
def PomodoroTimer.resume (t : PomodoroTimer) : Bool × PomodoroTimer :=
  if t.is_running && t.is_paused then (true, { t with is_paused := false })
  else (false, t)

/-- The method cancel(): under the lock, if running, clear both the
running and paused flags and return True; otherwise return False. -/
def PomodoroTimer.cancel (t : PomodoroTimer) : Bool × PomodoroTimer :=
  if t.is_running then (true, { t with is_running := false, is_paused := false })
  else (false, t)

/-- The first five assignments of _run_timer (its prologue, executed by
the spawned thread before any database write): set the countdown, the
session type, the running flag, clear the paused flag, and record the
start timestamp. -/
def PomodoroTimer.prologue (t : PomodoroTimer) (now duration : Nat)
    (stype : SessionType) : PomodoroTimer :=
  { t with remaining_time := duration
           session_type := stype
           is_running := true
           is_paused := false
           start_time := some now }

/-- Outcome of one attempted database write, distinguishing where in
_save_session the failure is raised.  get_connection() and conn.cursor()
run before the try block, so a failure there (failConnect) propagates out
of _save_session; cursor.execute / conn.commit run inside the try block,
so a failure there (failExecute) is caught and only logged. -/
inductive StoreOutcome where
  | ok
  | failExecute
  | failConnect
deriving DecidableEq, Repr

/-- The method _save_session(duration_minutes, session_type, end_time).
On a connect-stage failure the exception escapes (Except.error).  On an
execute-stage failure the exception is caught inside the try block and
logged; no row is persisted (Except.ok none).  On success the inserted
row is returned: note that a missing end_time argument is replaced by the
current timestamp before the insert, so the inserted row always carries a
present end_time. -/
def save_session (task_id : Int) (start_time : Option Nat) (now : Nat)
    (duration_minutes : Nat) (session_type : SessionType)
    (end_time : Option Nat) (outcome : StoreOutcome) :
    Except Unit (Option SessionRow) :=
  match outcome with
  | .failConnect => .error ()
  | .failExecute => .ok none
  | .ok =>
      let e : Option Nat :=
        match end_time with
        | none => some now
        | some x => some x
      .ok (some { task_id := task_id, start_time := start_time, end_time := e,
                  duration_minutes := duration_minutes, type := session_type })

/-- State carried out of a run of _run_timer when an uncaught exception
kills the timer thread: the field values at the moment of death, the rows
successfully written before it, and the simulated time reached. -/
structure RunAbort where
  timer : PomodoroTimer
  rows : List SessionRow
  now : Nat
deriving DecidableEq, Repr

/-- State carried out of a normally-returning run of _run_timer: final
field values, all rows written (in insertion order), final simulated
time, and the next write index for the store oracle. -/
structure RunResult where
  timer : PomodoroTimer
  rows : List SessionRow
  now : Nat
  widx : Nat
deriving DecidableEq, Repr

/-- Number of iterations the while loop of _run_timer performs: the loop
ticks once per second until remaining_time reaches 0, unless an external
cancel() (after k completed iterations) clears the running flag first, in
which case the loop condition fails at the next check. -/
def loopIters (cancelAfter : Option Nat) (duration : Nat) : Nat :=
  match cancelAfter with
  | none => duration
  | some k => min k duration

/-- Whether the loop of _run_timer was exited by cancellation rather than
by the countdown reaching 0: true exactly when the external cancel takes
effect strictly before duration iterations have completed. -/
def cancelledAt (cancelAfter : Option Nat) (duration : Nat) : Bool :=
  match cancelAfter with
  | none => false
  | some k => decide (k < duration)

/-- Big-step model of one call _run_timer(duration, session_type).

Arguments: store gives the outcome of the i-th database write (counting
from widx); t the field state on entry; now the simulated clock;
cancelAfter the external cancellation instant (none: no cancel() arrives
during the run; some k: cancel() takes effect after k completed loop
iterations of the whole chain, so a chained phase sees the leftover
budget k - duration).

The body mirrors the source: prologue, start-record insert, countdown
loop (one second per iteration), then either the cancellation branch
(no completion insert, no chaining, both flags cleared) or the
completion branch (completion insert with the current timestamp, and for
a "trabajo" phase a recursive run of the break phase; a "descanso" phase
does not chain, and does not clear the running flag).  fuel bounds the
recursion; fuel = 2 covers every real execution. -/
def run_timer (store : Nat → StoreOutcome) :
    Nat → Nat → PomodoroTimer → Nat → Nat → SessionType → Option Nat →
    Except RunAbort RunResult
  | 0, widx, t, now, _, _, _ => .ok ⟨t, [], now, widx⟩
  | fuel + 1, widx, t, now, duration, stype, cancelAfter =>
    let t1 := t.prologue now duration stype
    match save_session t1.task_id t1.start_time now (duration / 60) stype none
        (store widx) with
    | .error _ => .error ⟨t1, [], now⟩
    | .ok startRow =>
      let iters := loopIters cancelAfter duration
      let now1 := now + iters
      let t2 := { t1 with remaining_time := duration - iters }
      if cancelledAt cancelAfter duration then
        .ok ⟨{ t2 with is_running := false, is_paused := false },
             startRow.toList, now1, widx + 1⟩
      else
        match save_session t2.task_id t2.start_time now1 (duration / 60) stype
            (some now1) (store (widx + 1)) with
        | .error _ => .error ⟨t2, startRow.toList, now1⟩
        | .ok endRow =>
          if stype = .trabajo then
            match run_timer store fuel (widx + 2) t2 now1 t2.break_seconds
                .descanso (cancelAfter.map fun k => k - duration) with
            | .error a =>
                .error ⟨a.timer, startRow.toList ++ endRow.toList ++ a.rows, a.now⟩
            | .ok r =>
                .ok ⟨r.timer, startRow.toList ++ endRow.toList ++ r.rows, r.now, r.widx⟩
          else
            .ok ⟨t2, startRow.toList ++ endRow.toList, now1, widx + 2⟩

/-- Store oracle for a database that never fails. -/
def storeOk : Nat → StoreOutcome := fun _ => .ok

/-- Whether a run returned normally (true) or died on an uncaught
exception (false). -/
def resultIsOk : Except RunAbort RunResult → Bool
  | .ok _ => true
  | .error _ => false

/-- The rows written by a run, in insertion order, whether or not the run
returned normally. -/
def resultRows : Except RunAbort RunResult → List SessionRow
  | .ok r => r.rows
  | .error a => a.rows

/-- The field state left behind by a run. -/
def resultTimer : Except RunAbort RunResult → PomodoroTimer
  | .ok r => r.timer
  | .error a => a.timer

/-- The simulated time at which a run ended. -/
def resultNow : Except RunAbort RunResult → Nat
  | .ok r => r.now
  | .error a => a.now

/-- Program counter of the engine thread, abstracting the control points
of _run_timer: about to execute the prologue of a phase, inside the
while loop of a phase, past the loop and about to run the
completion/cancellation branch (control point fin), or no live thread
code (done). -/
inductive TP where
  | done
  | prologue (duration : Nat) (stype : SessionType)
  | loop (duration : Nat) (stype : SessionType)
  | fin (duration : Nat) (stype : SessionType)
deriving DecidableEq, Repr

/-- One interleaved configuration: the shared fields of the PomodoroTimer
object together with the engine thread's control point. -/
structure Sys where
  timer : PomodoroTimer
  pc : TP
deriving DecidableEq, Repr

/-- A freshly constructed controller: fields from __init__, no engine
thread running. -/
def Sys.init (task_id : Int) (work_min break_min : Nat) : Sys :=
  ⟨PomodoroTimer.init task_id work_min break_min, .done⟩

/-- Small-step interleaving semantics.  Each constructor is one atomic
step: either one Controller method call (the source runs each under the
single lock, except start which only reads the flag and spawns), or one
atomic piece of the engine thread's code.  Reads and calls that change
nothing (the False-returning branches, is_running) are not listed: they
do not change the configuration. -/
inductive Step : Sys → Sys → Prop where
  | apiStart (s : Sys) (h : s.timer.is_running = false) :
      Step s ⟨s.timer, .prologue s.timer.work_seconds .trabajo⟩
  | apiPause (s : Sys) (h1 : s.timer.is_running = true)
      (h2 : s.timer.is_paused = false) :
      Step s ⟨{ s.timer with is_paused := true }, s.pc⟩
  | apiResume (s : Sys) (h1 : s.timer.is_running = true)
      (h2 : s.timer.is_paused = true) :
      Step s ⟨{ s.timer with is_paused := false }, s.pc⟩
  | apiCancel (s : Sys) (h : s.timer.is_running = true) :
      Step s ⟨{ s.timer with is_running := false, is_paused := false }, s.pc⟩
  | engPrologue (s : Sys) (d : Nat) (k : SessionType) (now : Nat)
      (h : s.pc = .prologue d k) :
      Step s ⟨s.timer.prologue now d k, .loop d k⟩
  | engTick (s : Sys) (d : Nat) (k : SessionType) (h : s.pc = .loop d k)
      (hr : s.timer.remaining_time ≠ 0) (hrun : s.timer.is_running = true)
      (hp : s.timer.is_paused = false) :
      Step s ⟨{ s.timer with remaining_time := s.timer.remaining_time - 1 }, s.pc⟩
  | engLoopExit (s : Sys) (d : Nat) (k : SessionType) (h : s.pc = .loop d k)
      (hexit : s.timer.remaining_time = 0 ∨ s.timer.is_running = false) :
      Step s ⟨s.timer, .fin d k⟩
  | engCompleteWork (s : Sys) (d : Nat) (h : s.pc = .fin d .trabajo)
      (hrun : s.timer.is_running = true) :
      Step s ⟨s.timer, .prologue s.timer.break_seconds .descanso⟩
  | engCompleteBreak (s : Sys) (d : Nat) (h : s.pc = .fin d .descanso)
      (hrun : s.timer.is_running = true) :
      Step s ⟨s.timer, .done⟩
  | engCancelledExit (s : Sys) (d : Nat) (k : SessionType) (h : s.pc = .fin d k)
      (hrun : s.timer.is_running = false) :
      Step s ⟨{ s.timer with is_running := false, is_paused := false }, .done⟩

/-- Configurations reachable from a given one by any interleaving of
Controller calls and engine steps. -/
abbrev Reachable : Sys → Sys → Prop := Relation.ReflTransGen Step

/-- Every single step preserves the invariant that the paused flag is
only ever set while the running flag is set. -/
theorem Step.preserves_paused_running {a b : Sys} (st : Step a b)
    (ha : a.timer.is_paused = true → a.timer.is_running = true) :
    b.timer.is_paused = true → b.timer.is_running = true := by
  cases st <;> simp_all [PomodoroTimer.prologue]

/-- Closed form of a fully uninterrupted run started on a work phase with
a healthy store: the work phase writes its start and completion rows,
then auto-chains into one break phase, which writes its own start and
completion rows and does not chain further.  Note the final field state:
the running flag is still set. -/
theorem run_timer_work_complete (t : PomodoroTimer) (widx now D : Nat) :
    run_timer storeOk 2 widx t now D .trabajo none =
      .ok ⟨{ t with remaining_time := 0
                    session_type := .descanso
                    is_running := true
                    is_paused := false
                    start_time := some (now + D) },
           [⟨t.task_id, some now, some now, D / 60, .trabajo⟩,
            ⟨t.task_id, some now, some (now + D), D / 60, .trabajo⟩,
            ⟨t.task_id, some (now + D), some (now + D), t.break_seconds / 60, .descanso⟩,
            ⟨t.task_id, some (now + D), some (now + D + t.break_seconds),
              t.break_seconds / 60, .descanso⟩],
           now + D + t.break_seconds, widx + 4⟩ := by
  simp [run_timer, save_session, storeOk, loopIters, cancelledAt,
    PomodoroTimer.prologue, Option.toList]

/-- Closed form of a run whose phase is cancelled after k of its duration
loop iterations (k strictly before the countdown ends), with a healthy
store: only the start row of that phase is written, no completion row, no
chained phase, and the run leaves both flags cleared after k elapsed
seconds. -/
theorem run_timer_cancel_mid_phase (t : PomodoroTimer)
    (widx now duration k : Nat) (stype : SessionType) (h : k < duration) :
    run_timer storeOk 2 widx t now duration stype (some k) =
      .ok ⟨{ t with remaining_time := duration - k
                    session_type := stype
                    is_running := false
                    is_paused := false
                    start_time := some now },
           [⟨t.task_id, some now, some now, duration / 60, stype⟩],
           now + k, widx + 1⟩ := by
  simp [run_timer, save_session, storeOk, loopIters, cancelledAt,
    PomodoroTimer.prologue, Option.toList, Nat.min_eq_left h.le, h]

/-- The full uninterrupted run used by several concrete evaluations:
task 7, one work minute, one break minute, started at simulated time 0,
healthy store, no cancellation. -/
def fullChainRun : Except RunAbort RunResult :=
  run_timer storeOk 2 0 (PomodoroTimer.init 7 1 1) 0 60 .trabajo none

/-- C1: start() then cancel() within the first second, for task 7 with one
work minute, writes exactly one session row, of kind trabajo (work) — but
that row's end_time column is NOT absent: it holds the insertion
timestamp, because _save_session substitutes the current time for a
missing end_time before inserting.  The claimed absent end_time fails on
the code. -/
theorem cancelled_start_record_end_time_present :
    resultRows (run_timer storeOk 2 0 (PomodoroTimer.init 7 1 1) 0 60
        .trabajo (some 1)) = [⟨7, some 0, some 0, 1, .trabajo⟩] ∧
    (resultRows (run_timer storeOk 2 0 (PomodoroTimer.init 7 1 1) 0 60
        .trabajo (some 1))).map SessionRow.end_time = [some 0] := by
  decide

/-- C2: after the work and break phases both finish naturally (task 7,
one work minute, one break minute: the run returns normally, 120 seconds
elapsed, countdown exhausted), the running flag is STILL set, because the
completion branch of a descanso phase never clears it; so is_running()
(which returns that flag) reports true, where the claim requires false. -/
theorem running_flag_still_set_after_full_chain :
    resultIsOk fullChainRun = true ∧
    resultNow fullChainRun = 120 ∧
    (resultTimer fullChainRun).remaining_time = 0 ∧
    (resultTimer fullChainRun).is_running = true := by
  decide

/-- C3: a work phase of D work-seconds run to natural completion with a
healthy store writes exactly four session rows, in order: the work start
row and work completion row with duration D / 60 minutes, then (by the
automatic one-level chain) the break start row and break completion row
with duration break_seconds / 60 minutes; the completed break phase does
not chain further (the run ends after the fourth row). -/
theorem work_phase_four_records (t : PomodoroTimer) (now D : Nat) :
    run_timer storeOk 2 0 t now D .trabajo none =
      .ok ⟨{ t with remaining_time := 0
                    session_type := .descanso
                    is_running := true
                    is_paused := false
                    start_time := some (now + D) },
           [⟨t.task_id, some now, some now, D / 60, .trabajo⟩,
            ⟨t.task_id, some now, some (now + D), D / 60, .trabajo⟩,
            ⟨t.task_id, some (now + D), some (now + D), t.break_seconds / 60, .descanso⟩,
            ⟨t.task_id, some (now + D), some (now + D + t.break_seconds),
              t.break_seconds / 60, .descanso⟩],
           now + D + t.break_seconds, 4⟩ := by
  simpa using run_timer_work_complete t 0 now D

/-- C4: if cancel() takes effect after k loop iterations, strictly before
the duration of the phase has elapsed, the loop exits without writing a
completion row and nothing chains: the run ends with exactly the one
start row of that phase written, both flags cleared, k seconds elapsed
and duration - k seconds left on the countdown. -/
theorem cancel_mid_phase_single_start_record (t : PomodoroTimer)
    (widx now duration k : Nat) (stype : SessionType) (h : k < duration) :
    run_timer storeOk 2 widx t now duration stype (some k) =
      .ok ⟨{ t with remaining_time := duration - k
                    session_type := stype
                    is_running := false
                    is_paused := false
                    start_time := some now },
           [⟨t.task_id, some now, some now, duration / 60, stype⟩],
           now + k, widx + 1⟩ :=
  run_timer_cancel_mid_phase t widx now duration k stype h

/-- Witness for the cancellation theorem: a 120-second work phase for
task 3 cancelled after 7 seconds. -/
theorem cancel_mid_phase_single_start_record_witness :
    run_timer storeOk 2 0 (⟨3, 120, 60, false, false, 0, .trabajo, none⟩ :
        PomodoroTimer) 5 120 .trabajo (some 7) =
      .ok ⟨⟨3, 120, 60, false, false, 113, .trabajo, some 5⟩,
           [⟨3, some 5, some 5, 2, .trabajo⟩], 12, 1⟩ :=
  cancel_mid_phase_single_start_record
    ⟨3, 120, 60, false, false, 0, .trabajo, none⟩ 0 5 120 7 .trabajo (by decide)

/-- C5 counterexample: a store failure raised at the connect stage of the
very first write (get_connection / conn.cursor run before the try block
of _save_session) is NOT caught: the run dies on the uncaught exception
with no row written, the simulated clock never advanced, the countdown
still full — and the running flag stuck true.  So not every failure
raised while writing a session record leaves the countdown running. -/
theorem store_connect_failure_aborts_countdown :
    resultIsOk (run_timer (fun _ => StoreOutcome.failConnect) 2 0
        (PomodoroTimer.init 7 1 1) 0 60 .trabajo none) = false ∧
    resultNow (run_timer (fun _ => StoreOutcome.failConnect) 2 0
        (PomodoroTimer.init 7 1 1) 0 60 .trabajo none) = 0 ∧
    (resultTimer (run_timer (fun _ => StoreOutcome.failConnect) 2 0
        (PomodoroTimer.init 7 1 1) 0 60 .trabajo none)).remaining_time = 60 ∧
    resultRows (run_timer (fun _ => StoreOutcome.failConnect) 2 0
        (PomodoroTimer.init 7 1 1) 0 60 .trabajo none) = [] := by
  decide

/-- Helper: an outcome that is not a connect-stage failure is a success
or a caught execute-stage failure. -/
theorem StoreOutcome.of_not_connect (o : StoreOutcome)
    (h : o ≠ StoreOutcome.failConnect) :
    o = StoreOutcome.ok ∨ o = StoreOutcome.failExecute := by
  cases o <;> simp_all

/-- C5 amended: as long as no write fails at the connect stage — i.e.
every failure is raised by cursor.execute or conn.commit, inside the try
block of _save_session — every failure is caught and logged and the
countdown is unaffected: the run returns normally, the full 120 simulated
seconds of the work-plus-break chain elapse, and the countdown is
exhausted, whatever rows could or could not be saved. -/
theorem caught_store_failures_countdown_continues (store : Nat → StoreOutcome)
    (h : ∀ i, store i ≠ StoreOutcome.failConnect) :
    resultIsOk (run_timer store 2 0 (PomodoroTimer.init 7 1 1) 0 60
        .trabajo none) = true ∧
    resultNow (run_timer store 2 0 (PomodoroTimer.init 7 1 1) 0 60
        .trabajo none) = 120 ∧
    (resultTimer (run_timer store 2 0 (PomodoroTimer.init 7 1 1) 0 60
        .trabajo none)).remaining_time = 0 := by
  rcases StoreOutcome.of_not_connect _ (h 0) with h0 | h0 <;>
    rcases StoreOutcome.of_not_connect _ (h 1) with h1 | h1 <;>
    rcases StoreOutcome.of_not_connect _ (h 2) with h2 | h2 <;>
    rcases StoreOutcome.of_not_connect _ (h 3) with h3 | h3 <;>
    simp [run_timer, save_session, loopIters, cancelledAt,
      PomodoroTimer.prologue, PomodoroTimer.init, resultIsOk, resultNow,
      resultTimer, h0, h1, h2, h3]

/-- Witness for the amended persistence-failure theorem: every write
fails at the execute stage (caught and logged); the countdown still runs
to the end of the chain. -/
theorem caught_store_failures_countdown_continues_witness :
    resultIsOk (run_timer (fun _ => StoreOutcome.failExecute) 2 0
        (PomodoroTimer.init 7 1 1) 0 60 .trabajo none) = true ∧
    resultNow (run_timer (fun _ => StoreOutcome.failExecute) 2 0
        (PomodoroTimer.init 7 1 1) 0 60 .trabajo none) = 120 ∧
    (resultTimer (run_timer (fun _ => StoreOutcome.failExecute) 2 0
        (PomodoroTimer.init 7 1 1) 0 60 .trabajo none)).remaining_time = 0 :=
  caught_store_failures_countdown_continues (fun _ => StoreOutcome.failExecute)
    (fun _ => by simp)

/-- C6: the state left by a full natural work-plus-break run (which the
run model certifies really is the completed-chain state: normal return,
120 seconds elapsed) does NOT make pause() a no-op: because the running
flag was never cleared, pause() returns true and sets the paused flag,
where the claim requires false with no state change. -/
theorem pause_after_full_chain_not_noop :
    resultIsOk fullChainRun = true ∧
    resultNow fullChainRun = 120 ∧
    ((resultTimer fullChainRun).pause).fst = true ∧
    ((resultTimer fullChainRun).pause).snd.is_paused = true := by
  decide

/-- C7: in every configuration reachable from a fresh controller by any
interleaving of start / pause / resume / cancel calls and the engine
thread's own transitions, the paused flag is never set while the running
flag is clear. -/
theorem paused_implies_running_reachable (task_id : Int) (wm bm : Nat)
    (s : Sys) (h : Reachable (Sys.init task_id wm bm) s) :
    s.timer.is_paused = true → s.timer.is_running = true := by
  induction h with
  | refl => intro hp; simp [Sys.init, PomodoroTimer.init] at hp
  | tail _ st ih => exact st.preserves_paused_running ih

/-- A concrete reachable paused configuration: task 7, one work minute;
start(), then the engine prologue at time 0, then pause(). -/
def pausedMidLoop : Sys :=
  ⟨⟨7, 60, 60, true, true, 60, .trabajo, some 0⟩, .loop 60 .trabajo⟩

/-- Witness for the paused-implies-running invariant at the concrete
reachable paused configuration. -/
theorem paused_implies_running_reachable_witness :
    pausedMidLoop.timer.is_running = true := by
  have r1 : Reachable (Sys.init 7 1 1)
      (⟨PomodoroTimer.init 7 1 1, .prologue 60 .trabajo⟩ : Sys) :=
    Relation.ReflTransGen.single (Step.apiStart _ rfl)
  have r2 : Reachable (Sys.init 7 1 1)
      (⟨(PomodoroTimer.init 7 1 1).prologue 0 60 .trabajo, .loop 60 .trabajo⟩ : Sys) :=
    r1.tail (Step.engPrologue _ 60 .trabajo 0 rfl)
  have r3 : Reachable (Sys.init 7 1 1) pausedMidLoop :=
    r2.tail (Step.apiPause _ rfl rfl)
  exact paused_implies_running_reachable 7 1 1 pausedMidLoop r3 rfl

/-- C8: on a timer whose running flag is set, cancel() returns true and a
second immediate cancel() returns false; on a timer whose running flag is
clear, start() returns true, and once the spawned engine thread's
prologue has run (the first timer is active), a second start() returns
false and performs no action. -/
theorem cancel_twice_start_twice (t u : PomodoroTimer) (now : Nat)
    (hc : t.is_running = true) (hs : u.is_running = false) :
    (t.cancel).fst = true ∧
    (((t.cancel).snd).cancel).fst = false ∧
    (u.start).fst = true ∧
    ((((u.start).snd).prologue now u.work_seconds .trabajo).start).fst = false ∧
    (((u.start).snd).prologue now u.work_seconds .trabajo).start =
      (false, ((u.start).snd).prologue now u.work_seconds .trabajo) := by
  simp [PomodoroTimer.cancel, PomodoroTimer.start, PomodoroTimer.prologue, hc, hs]

/-- Witness for the double-cancel / double-start theorem: a running
25-minute timer for task 1, and a fresh timer for task 7. -/
theorem cancel_twice_start_twice_witness :
    ((⟨1, 1500, 300, true, false, 42, .trabajo, some 0⟩ :
        PomodoroTimer).cancel).fst = true ∧
    ((((⟨1, 1500, 300, true, false, 42, .trabajo, some 0⟩ :
        PomodoroTimer).cancel).snd).cancel).fst = false ∧
    ((PomodoroTimer.init 7 25 5).start).fst = true ∧
    ((((PomodoroTimer.init 7 25 5).start).snd.prologue 0
        (PomodoroTimer.init 7 25 5).work_seconds .trabajo).start).fst = false ∧
    (((PomodoroTimer.init 7 25 5).start).snd.prologue 0
        (PomodoroTimer.init 7 25 5).work_seconds .trabajo).start =
      (false, ((PomodoroTimer.init 7 25 5).start).snd.prologue 0
        (PomodoroTimer.init 7 25 5).work_seconds .trabajo) :=
  cancel_twice_start_twice
    ⟨1, 1500, 300, true, false, 42, .trabajo, some 0⟩
    (PomodoroTimer.init 7 25 5) 0 rfl rfl

/-- The configuration immediately after a successful start() on a fresh
controller (task 7, positive durations), before the spawned engine thread
has executed a single instruction. -/
def raceState : Sys := ⟨PomodoroTimer.init 7 1 1, .prologue 60 .trabajo⟩

/-- C9 counterexample: on a fresh controller with positive durations,
start() returns true but mutates no field, so in the interleaving where
the spawned thread has not yet begun (a reachable configuration of the
small-step system, one apiStart step from the initial one) is_running()
still reports false right after the successful start(). -/
theorem start_true_then_running_false :
    ((PomodoroTimer.init 7 1 1).start).fst = true ∧
    ((PomodoroTimer.init 7 1 1).start).snd.is_running = false ∧
    Reachable (Sys.init 7 1 1) raceState ∧
    raceState.timer.is_running = false := by
  refine ⟨by decide, by decide, ?_, by decide⟩
  exact Relation.ReflTransGen.single (Step.apiStart _ rfl)

/-- C9 amended: for every task and all positive work and break durations,
start() on a fresh controller returns true, and the running flag is set
exactly by the spawned engine thread's prologue — so is_running() reports
true only once the thread has begun, and in the interleaving where the
thread has not yet run, is_running() reports false right after the
successful start(). -/
theorem start_observed_after_thread_prologue (task_id : Int)
    (wm bm now : Nat) (_hw : 0 < wm) (_hb : 0 < bm) :
    ((PomodoroTimer.init task_id wm bm).start).fst = true ∧
    (((PomodoroTimer.init task_id wm bm).start).snd.prologue now
      ((PomodoroTimer.init task_id wm bm).work_seconds) .trabajo).is_running = true ∧
    ((PomodoroTimer.init task_id wm bm).start).snd.is_running = false := by
  simp [PomodoroTimer.init, PomodoroTimer.start, PomodoroTimer.prologue]

/-- Witness for the amended start-visibility theorem at task 7 with one
work minute and one break minute. -/
theorem start_observed_after_thread_prologue_witness :
    ((PomodoroTimer.init 7 1 1).start).fst = true ∧
    (((PomodoroTimer.init 7 1 1).start).snd.prologue 0
      ((PomodoroTimer.init 7 1 1).work_seconds) .trabajo).is_running = true ∧
    ((PomodoroTimer.init 7 1 1).start).snd.is_running = false :=
  start_observed_after_thread_prologue 7 1 1 0 (by decide) (by decide)

/-- C10: nothing enforces a positive duration.  With work_minutes = 0,
start() still returns true, and the engine run (whose while loop is
skipped outright, the countdown being already 0) immediately writes both
the start row and the completion row of the zero-length work phase — all
at the same instant, with duration_minutes 0 — then auto-chains into the
full break phase, writing its two rows; the run returns normally, no
error surfacing anywhere. -/
theorem zero_work_duration_accepted (task_id : Int) (bm now : Nat) :
    ((PomodoroTimer.init task_id 0 bm).start).fst = true ∧
    run_timer storeOk 2 0 (PomodoroTimer.init task_id 0 bm) now
        ((PomodoroTimer.init task_id 0 bm).work_seconds) .trabajo none =
      .ok ⟨⟨task_id, 0, bm * 60, true, false, 0, .descanso, some now⟩,
           [⟨task_id, some now, some now, 0, .trabajo⟩,
            ⟨task_id, some now, some now, 0, .trabajo⟩,
            ⟨task_id, some now, some now, bm, .descanso⟩,
            ⟨task_id, some now, some (now + bm * 60), bm, .descanso⟩],
           now + bm * 60, 4⟩ := by
  constructor
  · simp [PomodoroTimer.init, PomodoroTimer.start]
  · have h := run_timer_work_complete (PomodoroTimer.init task_id 0 bm) 0 now
      ((PomodoroTimer.init task_id 0 bm).work_seconds)
    have h60 : ∀ m : Nat, m * 60 / 60 = m := fun m => by omega
    simpa [PomodoroTimer.init, h60] using h
